import Mathlib

/-!
Verification of the go-uow transaction-lifecycle library.

The development shallowly embeds the library's source:
  * the error taxonomy of `errors.go` (`GoErr`);
  * the custom transaction options of `tx_options.go` (`TxOptions` and its presets);
  * the `database/sql` option values and the pgx option values, together with the
    adapter's translation `mapSQLTxOptionsToPgx` (`pgxv5/uow.go`);
  * the pgx-pool and database/sql unit-of-work adapters (`pgxv5/uow.go`,
    `stdsql/uow.go`) as explicit state-passing functions over a modelled native
    driver transaction;
  * the two execution helpers `RunTxWithResult`/`RunTx` in their two source
    variants: the error-wrapping variant (the run helper bundled with
    `pgxv5/uow.go`) and the defer/recover variant (`part_002`), instrumented
    with a call trace so that exactly-once finalization is expressible.

Go's mutable receivers become explicit state passing; Go's `error` results become
`Option` values (`none` = nil error); panics become explicit outcome constructors.
-/

/-- Error taxonomy of the library, from `errors.go`, together with the sentinel a
collaborator driver returns on a second finalize (`sql.ErrTxDone` / `pgx.ErrTxClosed`,
modelled as `txDone`) and the message-wrapping `fmt.Errorf("...: %w", err)` used by
`stdsql/uow.go` (modelled as `fmtWrap`). `base` injects an arbitrary driver or
action error; `joinErrs` models `errors.Join` of two non-nil errors. -/
inductive GoErr (ε : Type) where
  | base (e : ε)
  | transactionNotStarted
  | txDone
  | fmtWrap (msg : String) (e : GoErr ε)
  | failedToRollback (e : GoErr ε)
  | failedToCommit (e : GoErr ε)
  | failedToStartTransaction (e : GoErr ε)
  | joinErrs (e₁ e₂ : GoErr ε)
deriving DecidableEq, Repr

/-- Isolation-level constant `ReadUncommitted` of `tx_options.go` (a string type). -/
def ReadUncommitted : String := "read uncommitted"

/-- Isolation-level constant `ReadCommitted` of `tx_options.go`. -/
def ReadCommitted : String := "read committed"

/-- Isolation-level constant `RepeatableRead` of `tx_options.go`. -/
def RepeatableRead : String := "repeatable read"

/-- Isolation-level constant `Serializable` of `tx_options.go`. -/
def Serializable : String := "serializable"

/-- The library's own `TxOptions`, from `tx_options.go`. -/
structure TxOptions where
  isolationLevel : String
  readOnly : Bool
deriving DecidableEq, Repr

/-- Preset `DefaultTxOptions()` of `tx_options.go`: read committed, read-write. -/
def DefaultTxOptions : TxOptions :=
  { isolationLevel := ReadCommitted, readOnly := false }

/-- Preset `SerializableTxOptions()` of `tx_options.go`: serializable, read-write. -/
def SerializableTxOptions : TxOptions :=
  { isolationLevel := Serializable, readOnly := false }

/-- Preset `ReadOnlyTxOptions()` of `tx_options.go`: read committed, read-only. -/
def ReadOnlyTxOptions : TxOptions :=
  { isolationLevel := ReadCommitted, readOnly := true }

namespace Sql

/-- `database/sql` isolation level `LevelDefault` (the Go constant is the int 0). -/
def LevelDefault : Int := 0

/-- `database/sql` isolation level `LevelReadUncommitted` (int 1). -/
def LevelReadUncommitted : Int := 1

/-- `database/sql` isolation level `LevelReadCommitted` (int 2). -/
def LevelReadCommitted : Int := 2

/-- `database/sql` isolation level `LevelWriteCommitted` (int 3). -/
def LevelWriteCommitted : Int := 3

/-- `database/sql` isolation level `LevelRepeatableRead` (int 4). -/
def LevelRepeatableRead : Int := 4

/-- `database/sql` isolation level `LevelSnapshot` (int 5). -/
def LevelSnapshot : Int := 5

/-- `database/sql` isolation level `LevelSerializable` (int 6). -/
def LevelSerializable : Int := 6

/-- `database/sql` isolation level `LevelLinearizable` (int 7). -/
def LevelLinearizable : Int := 7

/-- `sql.TxOptions`: an isolation level (a Go int, embedded as `Int`) and a
read-only flag. A Go `*sql.TxOptions` is embedded as `Option Sql.TxOptions`. -/
structure TxOptions where
  isolation : Int
  readOnly : Bool
deriving DecidableEq, Repr

end Sql

namespace Pgx

/-- pgx isolation constant `pgx.ReadUncommitted` (the string "read uncommitted"). -/
def ReadUncommitted : String := "read uncommitted"

/-- pgx isolation constant `pgx.ReadCommitted`. -/
def ReadCommitted : String := "read committed"

/-- pgx isolation constant `pgx.RepeatableRead`. -/
def RepeatableRead : String := "repeatable read"

/-- pgx isolation constant `pgx.Serializable`. -/
def Serializable : String := "serializable"

/-- pgx access mode `pgx.ReadWrite`. -/
def ReadWrite : String := "read write"

/-- pgx access mode `pgx.ReadOnly`. -/
def ReadOnly : String := "read only"

end Pgx

/-- `pgx.TxOptions`: isolation level and access mode, both string-valued; the Go
zero value has both fields empty. -/
structure PgxTxOptions where
  isoLevel : String
  accessMode : String
deriving DecidableEq, Repr

/-- `mapSQLTxOptionsToPgx` from `pgxv5/uow.go`: a nil options pointer yields the
zero `pgx.TxOptions`; otherwise the four recognized `database/sql` levels map to
their pgx equivalents, every other level falls to the default branch
(`pgx.ReadCommitted`), and the read-only flag picks the access mode. -/
def mapSQLTxOptionsToPgx (options : Option Sql.TxOptions) : PgxTxOptions :=
  match options with
  | none => { isoLevel := "", accessMode := "" }
  | some o =>
    let isoLevel :=
      if o.isolation = Sql.LevelReadUncommitted then Pgx.ReadUncommitted
      else if o.isolation = Sql.LevelReadCommitted then Pgx.ReadCommitted
      else if o.isolation = Sql.LevelRepeatableRead then Pgx.RepeatableRead
      else if o.isolation = Sql.LevelSerializable then Pgx.Serializable
      else Pgx.ReadCommitted
    { isoLevel := isoLevel,
      accessMode := if o.readOnly then Pgx.ReadOnly else Pgx.ReadWrite }

/-- Model of a collaborator driver transaction handle (`*sql.Tx` of `database/sql`,
`pgx.Tx` of pgx). `commitErr`/`rollbackErr` are the errors the first native
commit/rollback would report. `done` is the driver's own guard: both drivers
refuse a second Commit or Rollback on an already-finalized transaction with a
sentinel error (`sql.ErrTxDone`, `pgx.ErrTxClosed`) and execute nothing against
the database; both also mark the handle done on the first call whatever its
outcome. `commitExecs`/`rollbackExecs` count the native COMMIT/ROLLBACK
statements actually executed. -/
structure NativeTx (ε : Type) where
  commitErr : Option (GoErr ε)
  rollbackErr : Option (GoErr ε)
  done : Bool
  commitExecs : Nat
  rollbackExecs : Nat
deriving DecidableEq, Repr

/-- Native commit of the collaborator driver: rejected with the driver sentinel
once `done`, otherwise executes one COMMIT, reports `commitErr`, and marks the
handle done. -/
def NativeTx.commit (t : NativeTx ε) : Option (GoErr ε) × NativeTx ε :=
  if t.done then (some GoErr.txDone, t)
  else (t.commitErr, { t with done := true, commitExecs := t.commitExecs + 1 })

/-- Native rollback of the collaborator driver, symmetric to `NativeTx.commit`. -/
def NativeTx.rollback (t : NativeTx ε) : Option (GoErr ε) × NativeTx ε :=
  if t.done then (some GoErr.txDone, t)
  else (t.rollbackErr, { t with done := true, rollbackExecs := t.rollbackExecs + 1 })

/-- Model of a checked-out `*pgxpool.Conn`: `beginResults k` is the outcome of the
(k+1)-th `BeginTx` call on this connection, `beginCalls` counts those calls, and
`releaseCount` counts the `Release()` invocations the adapter issues. -/
structure PgConn (ε : Type) where
  beginResults : Nat → Except (GoErr ε) (NativeTx ε)
  beginCalls : Nat
  releaseCount : Nat

/-- `conn.BeginTx(ctx, pgxOptions)`: consumes the next begin outcome. The modelled
outcome does not depend on the translated options (they only parameterize the
database-side semantics), so they are accepted and ignored. -/
def PgConn.beginTx (c : PgConn ε) (_options : PgxTxOptions) :
    Except (GoErr ε) (NativeTx ε) × PgConn ε :=
  (c.beginResults c.beginCalls, { c with beginCalls := c.beginCalls + 1 })

/-- `conn.Release()` of pgxpool, counted. -/
def PgConn.release (c : PgConn ε) : PgConn ε :=
  { c with releaseCount := c.releaseCount + 1 }

/-- The pgx unit of work `pgUOW` of `pgxv5/uow.go`: a stored transaction handle
(nil until a successful `Begin`), the stored repository registry (its Go zero
value, modelled `none`, until `Begin` stores the factory's product), the owned
pooled connection, and the registry factory. -/
structure PgUOW (ρ ε : Type) where
  tx : Option (NativeTx ε)
  repoRegistry : Option ρ
  conn : PgConn ε
  repoRegistryFactory : NativeTx ε → ρ

/-- `newPgUOW` of `pgxv5/uow.go`: fresh unit of work, nothing begun. -/
def newPgUOW (conn : PgConn ε) (repoRegistryFactory : NativeTx ε → ρ) : PgUOW ρ ε :=
  { tx := none, repoRegistry := none, conn := conn,
    repoRegistryFactory := repoRegistryFactory }

/-- `pgUOW.RepoRegistry` of `pgxv5/uow.go`: `ErrTransactionNotStarted` while no
transaction is stored, otherwise the address of the stored registry field. -/
def PgUOW.RepoRegistry (u : PgUOW ρ ε) : Except (GoErr ε) (Option ρ) :=
  match u.tx with
  | none => Except.error GoErr.transactionNotStarted
  | some _ => Except.ok u.repoRegistry

/-- Outcome of a Go call that may panic with a string message. -/
inductive PanicOr (α : Type) where
  | panicked (msg : String)
  | value (a : α)
deriving DecidableEq, Repr

/-- `pgUOW.MustRepoRegistry` of `pgxv5/uow.go`: panics with
"transaction not started" while no transaction is stored. -/
def PgUOW.MustRepoRegistry (u : PgUOW ρ ε) : PanicOr (Option ρ) :=
  match u.tx with
  | none => PanicOr.panicked "transaction not started"
  | some _ => PanicOr.value u.repoRegistry

/-- `pgUOW.Begin` of `pgxv5/uow.go`: translates the options, asks the connection
for a native transaction, and on success stores the handle and the registry the
factory builds from it. No check of a previously stored handle is made. -/
def PgUOW.Begin (u : PgUOW ρ ε) (options : Option Sql.TxOptions) :
    Option (GoErr ε) × PgUOW ρ ε :=
  let pgxOptions := mapSQLTxOptionsToPgx options
  match PgConn.beginTx u.conn pgxOptions with
  | (Except.error e, c) => (some e, { u with conn := c })
  | (Except.ok tx, c) =>
    (none,
      { u with
          conn := c
          tx := some tx
          repoRegistry := some (u.repoRegistryFactory tx) })

/-- `pgUOW.Commit` of `pgxv5/uow.go`: `defer u.conn.Release()` runs on every
path; `ErrTransactionNotStarted` if nothing was begun; otherwise the native
commit. -/
def PgUOW.Commit (u : PgUOW ρ ε) : Option (GoErr ε) × PgUOW ρ ε :=
  let conn := PgConn.release u.conn
  match u.tx with
  | none => (some GoErr.transactionNotStarted, { u with conn := conn })
  | some t =>
    match NativeTx.commit t with
    | (e, t₂) => (e, { u with conn := conn, tx := some t₂ })

/-- `pgUOW.Rollback` of `pgxv5/uow.go`, symmetric to `PgUOW.Commit`. -/
def PgUOW.Rollback (u : PgUOW ρ ε) : Option (GoErr ε) × PgUOW ρ ε :=
  let conn := PgConn.release u.conn
  match u.tx with
  | none => (some GoErr.transactionNotStarted, { u with conn := conn })
  | some t =>
    match NativeTx.rollback t with
    | (e, t₂) => (e, { u with conn := conn, tx := some t₂ })

/-- Model of a `*sql.DB` as seen by `stdsql/uow.go`: a stream of begin outcomes
with a call counter. -/
structure SqlDB (ε : Type) where
  beginResults : Nat → Except (GoErr ε) (NativeTx ε)
  beginCalls : Nat

/-- `db.BeginTx(ctx, options)`: consumes the next begin outcome; the modelled
outcome does not depend on the options. -/
def SqlDB.beginTx (db : SqlDB ε) (_options : Option Sql.TxOptions) :
    Except (GoErr ε) (NativeTx ε) × SqlDB ε :=
  (db.beginResults db.beginCalls, { db with beginCalls := db.beginCalls + 1 })

/-- The database/sql unit of work `sqlUOW` of `stdsql/uow.go`. -/
structure SqlUOW (ρ ε : Type) where
  tx : Option (NativeTx ε)
  repoRegistry : Option ρ
  db : SqlDB ε
  repoRegistryFactory : NativeTx ε → ρ

/-- `newSQLUOW` of `stdsql/uow.go`: fresh unit of work, nothing begun. -/
def newSQLUOW (db : SqlDB ε) (repoRegistryFactory : NativeTx ε → ρ) : SqlUOW ρ ε :=
  { tx := none, repoRegistry := none, db := db,
    repoRegistryFactory := repoRegistryFactory }

/-- `sqlUOW.MustRepoRegistry` of `stdsql/uow.go`: panics with
"transaction not started" while no transaction is stored. -/
def SqlUOW.MustRepoRegistry (u : SqlUOW ρ ε) : PanicOr (Option ρ) :=
  match u.tx with
  | none => PanicOr.panicked "transaction not started"
  | some _ => PanicOr.value u.repoRegistry

/-- `sqlUOW.Begin` of `stdsql/uow.go`: begins on the database handle, wrapping a
begin failure via `fmt.Errorf("failed to begin transaction: %w", err)`; on
success stores the handle and the registry. No check of a previously stored
handle is made. -/
def SqlUOW.Begin (u : SqlUOW ρ ε) (options : Option Sql.TxOptions) :
    Option (GoErr ε) × SqlUOW ρ ε :=
  match SqlDB.beginTx u.db options with
  | (Except.error e, db) =>
    (some (GoErr.fmtWrap "failed to begin transaction" e), { u with db := db })
  | (Except.ok tx, db) =>
    (none,
      { u with
          db := db
          tx := some tx
          repoRegistry := some (u.repoRegistryFactory tx) })

/-- `sqlUOW.Commit` of `stdsql/uow.go`: `ErrTransactionNotStarted` if nothing was
begun, otherwise the native commit. -/
def SqlUOW.Commit (u : SqlUOW ρ ε) : Option (GoErr ε) × SqlUOW ρ ε :=
  match u.tx with
  | none => (some GoErr.transactionNotStarted, u)
  | some t =>
    match NativeTx.commit t with
    | (e, t₂) => (e, { u with tx := some t₂ })

/-- `sqlUOW.Rollback` of `stdsql/uow.go`, symmetric to `SqlUOW.Commit`. -/
def SqlUOW.Rollback (u : SqlUOW ρ ε) : Option (GoErr ε) × SqlUOW ρ ε :=
  match u.tx with
  | none => (some GoErr.transactionNotStarted, u)
  | some t =>
    match NativeTx.rollback t with
    | (e, t₂) => (e, { u with tx := some t₂ })

/-- Observable behavior of one abstract unit of work as seen by the generic
execution helpers (which are generic over the `UOW` interface of the core
package): the outcomes its `Begin`, `Rollback` and `Commit` would report in one
run. `none` is a nil Go error. -/
structure UOWBehavior (ε : Type) where
  beginErr : Option (GoErr ε)
  rollbackErr : Option (GoErr ε)
  commitErr : Option (GoErr ε)
deriving DecidableEq, Repr

/-- Instrumentation of the execution helpers: how many times each lifecycle
operation of the unit of work was invoked by the helper, and whether the user
action was invoked. -/
structure LifecycleTrace where
  beginCalls : Nat
  actionCalls : Nat
  rollbackCalls : Nat
  commitCalls : Nat
deriving DecidableEq, Repr

/-- `RunTxWithResult`, error-wrapping variant (the run helper bundled with
`pgxv5/uow.go`, lines 117-147 of the concatenated source). The factory outcome is
`factoryResult`; the user action is represented by the pair it returns (its
result pointer and its error) — the helper passes each lifecycle call to the
abstract unit of work and is instrumented with a `LifecycleTrace`. Source
control flow: factory error propagated unchanged; begin error wrapped in
`FailedToStartTransaction`; on a non-nil action error, rollback is invoked, a
rollback failure produces `FailedToRollback (errors.Join actionErr rollbackErr)`,
otherwise the action error is returned unchanged; on a nil action error, commit
is invoked, a commit failure produces `FailedToCommit`, otherwise the action's
result is returned. The context argument carries no information here and is
dropped. -/
def RunTxWithResult (factoryResult : Except (GoErr ε) (UOWBehavior ε))
    (action : Option ρ × Option (GoErr ε)) (_options : TxOptions) :
    (Option ρ × Option (GoErr ε)) × LifecycleTrace :=
  match factoryResult with
  | Except.error e => ((none, some e), ⟨0, 0, 0, 0⟩)
  | Except.ok u =>
    match u.beginErr with
    | some e => ((none, some (GoErr.failedToStartTransaction e)), ⟨1, 0, 0, 0⟩)
    | none =>
      match action with
      | (result, err) =>
        match err with
        | some e =>
          match u.rollbackErr with
          | some rollbackErr =>
            ((none, some (GoErr.failedToRollback (GoErr.joinErrs e rollbackErr))),
             ⟨1, 1, 1, 0⟩)
          | none => ((none, some e), ⟨1, 1, 1, 0⟩)
        | none =>
          match u.commitErr with
          | some commitErr =>
            ((none, some (GoErr.failedToCommit commitErr)), ⟨1, 1, 0, 1⟩)
          | none => ((result, none), ⟨1, 1, 0, 1⟩)

/-- `RunTx`, error-wrapping variant: wraps the no-result action as
`func(uow) (*any, error) { return nil, action(uow) }` and returns only the error
of `RunTxWithResult` (the trace is kept for the instrumentation). -/
def RunTx (factoryResult : Except (GoErr ε) (UOWBehavior ε))
    (actionErr : Option (GoErr ε)) (options : TxOptions) :
    Option (GoErr ε) × LifecycleTrace :=
  match RunTxWithResult factoryResult ((none : Option Unit), actionErr) options with
  | ((_, err), trace) => (err, trace)

/-- Outcome of a user action passed to the defer/recover run variant: either a
normal return of a result pointer and an error, or a panic carrying a value. -/
inductive ActionOutcome (ρ ε π : Type) where
  | normal (res : Option ρ) (err : Option (GoErr ε))
  | panicked (p : π)
deriving DecidableEq, Repr

/-- Outcome of the defer/recover run variant: a normal return of result and
error, or the re-raised panic. -/
inductive RunOutcome (ρ ε π : Type) where
  | returned (res : Option ρ) (err : Option (GoErr ε))
  | panicked (p : π)
deriving DecidableEq, Repr

/-- `RunTxWithResult`, defer/recover variant (`src/unnamed/part_002`). Source
control flow: factory and begin errors are returned unchanged (the deferred
finalizer is installed only after a successful begin); the deferred finalizer
then distinguishes three cases — a recovered panic rolls back, discarding the
rollback error (`_ = uow.Rollback(ctx)`), and re-panics with the original value;
a non-nil action error rolls back, also discarding the rollback error, and the
named returns `(res, err)` of the action are returned as they are; otherwise
`err = uow.Commit(ctx)` so the commit outcome is returned next to the action's
result. Instrumented with a `LifecycleTrace`. -/
def RunTxWithResultDefer (factoryResult : Except (GoErr ε) (UOWBehavior ε))
    (action : ActionOutcome ρ ε π) (_options : Option Sql.TxOptions) :
    RunOutcome ρ ε π × LifecycleTrace :=
  match factoryResult with
  | Except.error e => (RunOutcome.returned none (some e), ⟨0, 0, 0, 0⟩)
  | Except.ok u =>
    match u.beginErr with
    | some e => (RunOutcome.returned none (some e), ⟨1, 0, 0, 0⟩)
    | none =>
      match action with
      | ActionOutcome.panicked p => (RunOutcome.panicked p, ⟨1, 1, 1, 0⟩)
      | ActionOutcome.normal res err =>
        match err with
        | some e => (RunOutcome.returned res (some e), ⟨1, 1, 1, 0⟩)
        | none => (RunOutcome.returned res u.commitErr, ⟨1, 1, 0, 1⟩)

/-- Outcome of a no-result user action passed to the defer/recover `RunTx`:
a normal return of an error, or a panic. -/
inductive TxActionOutcome (ε π : Type) where
  | normal (err : Option (GoErr ε))
  | panicked (p : π)
deriving DecidableEq, Repr

/-- The closure `func(uow) (*any, error) { return nil, action(uow) }` that the
defer/recover `RunTx` builds around its no-result action; a panic of the action
propagates through it. -/
def wrapTxAction (action : TxActionOutcome ε π) : ActionOutcome Unit ε π :=
  match action with
  | TxActionOutcome.normal err => ActionOutcome.normal none err
  | TxActionOutcome.panicked p => ActionOutcome.panicked p

/-- Outcome of the defer/recover `RunTx`: an error, or the propagated panic. -/
inductive RunErrOutcome (ε π : Type) where
  | returned (err : Option (GoErr ε))
  | panicked (p : π)
deriving DecidableEq, Repr

/-- Projection of a run outcome to its error component (Go
`_, err := RunTxWithResult(...); return err`, through which a panic propagates). -/
def runOutcomeErr (r : RunOutcome ρ ε π) : RunErrOutcome ε π :=
  match r with
  | RunOutcome.returned _ err => RunErrOutcome.returned err
  | RunOutcome.panicked p => RunErrOutcome.panicked p

/-- `RunTx`, defer/recover variant (`src/unnamed/part_002`): calls
`RunTxWithResultDefer` on the wrapped action and keeps only the error. -/
def RunTxDefer (factoryResult : Except (GoErr ε) (UOWBehavior ε))
    (action : TxActionOutcome ε π) (options : Option Sql.TxOptions) :
    RunErrOutcome ε π × LifecycleTrace :=
  match RunTxWithResultDefer factoryResult (wrapTxAction action) options with
  | (outcome, trace) => (runOutcomeErr outcome, trace)

/-- C7: the isolation-level mapping from `sql.TxOptions` to the pgx options is a
total deterministic function: the four recognized levels map one-to-one to their
pgx equivalents (the four images are pairwise distinct), every other
(unrecognized, default, or unspecified) level maps to `pgx.ReadCommitted`, and
the read-only flag maps to `pgx.ReadOnly` exactly when set and `pgx.ReadWrite`
otherwise. -/
theorem mapSQLTxOptionsToPgx_total_mapping (o : Sql.TxOptions) :
    (o.isolation = Sql.LevelReadUncommitted →
      (mapSQLTxOptionsToPgx (some o)).isoLevel = Pgx.ReadUncommitted) ∧
    (o.isolation = Sql.LevelReadCommitted →
      (mapSQLTxOptionsToPgx (some o)).isoLevel = Pgx.ReadCommitted) ∧
    (o.isolation = Sql.LevelRepeatableRead →
      (mapSQLTxOptionsToPgx (some o)).isoLevel = Pgx.RepeatableRead) ∧
    (o.isolation = Sql.LevelSerializable →
      (mapSQLTxOptionsToPgx (some o)).isoLevel = Pgx.Serializable) ∧
    (o.isolation ≠ Sql.LevelReadUncommitted → o.isolation ≠ Sql.LevelReadCommitted →
      o.isolation ≠ Sql.LevelRepeatableRead → o.isolation ≠ Sql.LevelSerializable →
      (mapSQLTxOptionsToPgx (some o)).isoLevel = Pgx.ReadCommitted) ∧
    ((mapSQLTxOptionsToPgx (some o)).accessMode =
      if o.readOnly then Pgx.ReadOnly else Pgx.ReadWrite) ∧
    [Pgx.ReadUncommitted, Pgx.ReadCommitted, Pgx.RepeatableRead,
      Pgx.Serializable].Nodup := by
  refine ⟨?_, ?_, ?_, ?_, ?_, ?_, ?_⟩
  · intro h
    simp [mapSQLTxOptionsToPgx, h, Sql.LevelReadUncommitted]
  · intro h
    simp [mapSQLTxOptionsToPgx, h, Sql.LevelReadUncommitted, Sql.LevelReadCommitted]
  · intro h
    simp [mapSQLTxOptionsToPgx, h, Sql.LevelReadUncommitted, Sql.LevelReadCommitted,
      Sql.LevelRepeatableRead]
  · intro h
    simp [mapSQLTxOptionsToPgx, h, Sql.LevelReadUncommitted, Sql.LevelReadCommitted,
      Sql.LevelRepeatableRead, Sql.LevelSerializable]
  · intro h₁ h₂ h₃ h₄
    simp [mapSQLTxOptionsToPgx, h₁, h₂, h₃, h₄]
  · simp [mapSQLTxOptionsToPgx]
  · decide

/-- Witness for C7 at the unrecognized level `sql.LevelSnapshot` (the int 5) with
the read-only flag set. -/
theorem mapSQLTxOptionsToPgx_total_mapping_witness :
    (((⟨5, true⟩ : Sql.TxOptions).isolation ≠ Sql.LevelReadUncommitted ∧
      (⟨5, true⟩ : Sql.TxOptions).isolation ≠ Sql.LevelReadCommitted ∧
      (⟨5, true⟩ : Sql.TxOptions).isolation ≠ Sql.LevelRepeatableRead ∧
      (⟨5, true⟩ : Sql.TxOptions).isolation ≠ Sql.LevelSerializable) ∧
     (mapSQLTxOptionsToPgx (some (⟨5, true⟩ : Sql.TxOptions))).isoLevel =
       Pgx.ReadCommitted) :=
  ⟨⟨by decide, by decide, by decide, by decide⟩,
   (mapSQLTxOptionsToPgx_total_mapping (⟨5, true⟩ : Sql.TxOptions)).2.2.2.2.1
     (by decide) (by decide) (by decide) (by decide)⟩

/-- C10: every `Commit` or `Rollback` call on the pgx unit of work releases the
pooled connection checkout exactly once per call, on every path: when the
transaction was never begun (the call reports `transactionNotStarted`), when the
native finalize fails, and when it succeeds. -/
theorem pgUOW_finalize_releases_connection_once (u : PgUOW ρ ε) :
    ((PgUOW.Commit u).2.conn.releaseCount = u.conn.releaseCount + 1) ∧
    ((PgUOW.Rollback u).2.conn.releaseCount = u.conn.releaseCount + 1) := by
  cases h : u.tx with
  | none => simp [PgUOW.Commit, PgUOW.Rollback, PgConn.release, h]
  | some t =>
    cases ht : t.done <;>
      simp [PgUOW.Commit, PgUOW.Rollback, PgConn.release, NativeTx.commit,
        NativeTx.rollback, h, ht]

/-- Sample abstract unit-of-work behavior whose rollback fails. -/
def sampleRollbackFail : UOWBehavior Nat :=
  { beginErr := none, rollbackErr := some (GoErr.base 9), commitErr := none }

/-- Sample abstract unit-of-work behavior with all lifecycle calls succeeding. -/
def samplePlain : UOWBehavior Nat :=
  { beginErr := none, rollbackErr := none, commitErr := none }

/-- Sample abstract unit-of-work behavior whose begin fails. -/
def sampleBeginFail : UOWBehavior Nat :=
  { beginErr := some (GoErr.base 2), rollbackErr := none, commitErr := none }

/-- Sample pooled connection whose begin always fails. -/
def sampleFailingConn : PgConn Nat :=
  { beginResults := fun _ => Except.error (GoErr.base 3), beginCalls := 0,
    releaseCount := 0 }

/-- C1: when the action invoked by the error-wrapping `RunTxWithResult` after a
successful begin returns a non-nil error, the helper calls rollback exactly once
(and never commit) and returns the action error unchanged; if the rollback also
fails, it returns `FailedToRollback` of `errors.Join` of the action error and
the rollback error, discarding neither. -/
theorem runTxWithResult_action_error_rolls_back_once
    (u : UOWBehavior ε) (hb : u.beginErr = none)
    (res : Option ρ) (e : GoErr ε) (options : TxOptions) :
    ((RunTxWithResult (Except.ok u) (res, some e) options).2.rollbackCalls = 1 ∧
     (RunTxWithResult (Except.ok u) (res, some e) options).2.commitCalls = 0) ∧
    (u.rollbackErr = none →
      (RunTxWithResult (Except.ok u) (res, some e) options).1 = (none, some e)) ∧
    (∀ re, u.rollbackErr = some re →
      (RunTxWithResult (Except.ok u) (res, some e) options).1 =
        (none, some (GoErr.failedToRollback (GoErr.joinErrs e re)))) := by
  cases hre : u.rollbackErr <;> simp [RunTxWithResult, hb, hre]

/-- Witness for C1: a run with action error 7 over a behavior whose rollback
fails with error 9. -/
theorem runTxWithResult_action_error_rolls_back_once_witness :
    sampleRollbackFail.beginErr = none ∧
    (((RunTxWithResult (Except.ok sampleRollbackFail)
        ((some 3 : Option Nat), some (GoErr.base 7))
        DefaultTxOptions).2.rollbackCalls = 1 ∧
      (RunTxWithResult (Except.ok sampleRollbackFail)
        ((some 3 : Option Nat), some (GoErr.base 7))
        DefaultTxOptions).2.commitCalls = 0) ∧
     (sampleRollbackFail.rollbackErr = none →
       (RunTxWithResult (Except.ok sampleRollbackFail)
         ((some 3 : Option Nat), some (GoErr.base 7))
         DefaultTxOptions).1 = (none, some (GoErr.base 7))) ∧
     (∀ re, sampleRollbackFail.rollbackErr = some re →
       (RunTxWithResult (Except.ok sampleRollbackFail)
         ((some 3 : Option Nat), some (GoErr.base 7))
         DefaultTxOptions).1 =
         (none, some (GoErr.failedToRollback (GoErr.joinErrs (GoErr.base 7) re))))) :=
  ⟨rfl, runTxWithResult_action_error_rolls_back_once sampleRollbackFail rfl
    (some 3) (GoErr.base 7) DefaultTxOptions⟩

/-- C2: when the action invoked by the defer/recover `RunTxWithResult` after a
successful begin panics, the helper rolls back (its trace shows one rollback and
no commit), suppresses any rollback error (the outcome does not depend on
`rollbackErr`), and re-raises the original panic value unchanged. -/
theorem runTxWithResultDefer_panic_rolls_back_and_repanics (ρ : Type)
    (u : UOWBehavior ε) (hb : u.beginErr = none) (p : π)
    (options : Option Sql.TxOptions) :
    RunTxWithResultDefer (Except.ok u)
      (ActionOutcome.panicked p : ActionOutcome ρ ε π) options =
      (RunOutcome.panicked p, ⟨1, 1, 1, 0⟩) := by
  simp [RunTxWithResultDefer, hb]

/-- Witness for C2: a panic with value 11 over a behavior whose rollback fails
(the panic is still re-raised unchanged). -/
theorem runTxWithResultDefer_panic_rolls_back_and_repanics_witness :
    sampleRollbackFail.beginErr = none ∧
    RunTxWithResultDefer (Except.ok sampleRollbackFail)
      (ActionOutcome.panicked 11 : ActionOutcome Nat Nat Nat) none =
      (RunOutcome.panicked 11, ⟨1, 1, 1, 0⟩) :=
  ⟨rfl, runTxWithResultDefer_panic_rolls_back_and_repanics Nat sampleRollbackFail
    rfl 11 none⟩

/-- C3: when the action invoked by the error-wrapping `RunTxWithResult` returns a
nil error, the helper calls commit exactly once (and never rollback); a commit
failure yields `FailedToCommit` of the commit error with the action's result
discarded, and a successful commit returns the action's result unchanged with no
error. -/
theorem runTxWithResult_success_commits
    (u : UOWBehavior ε) (hb : u.beginErr = none)
    (res : Option ρ) (options : TxOptions) :
    ((RunTxWithResult (Except.ok u) (res, none) options).2.commitCalls = 1 ∧
     (RunTxWithResult (Except.ok u) (res, none) options).2.rollbackCalls = 0) ∧
    (u.commitErr = none →
      (RunTxWithResult (Except.ok u) (res, none) options).1 = (res, none)) ∧
    (∀ ce, u.commitErr = some ce →
      (RunTxWithResult (Except.ok u) (res, none) options).1 =
        (none, some (GoErr.failedToCommit ce))) := by
  cases hce : u.commitErr <;> simp [RunTxWithResult, hb, hce]

/-- Witness for C3: a successful action with result 5 over a behavior with a
successful commit. -/
theorem runTxWithResult_success_commits_witness :
    samplePlain.beginErr = none ∧
    (((RunTxWithResult (Except.ok samplePlain) ((some 5 : Option Nat), none)
        DefaultTxOptions).2.commitCalls = 1 ∧
      (RunTxWithResult (Except.ok samplePlain) ((some 5 : Option Nat), none)
        DefaultTxOptions).2.rollbackCalls = 0) ∧
     (samplePlain.commitErr = none →
       (RunTxWithResult (Except.ok samplePlain) ((some 5 : Option Nat), none)
         DefaultTxOptions).1 = (some 5, none)) ∧
     (∀ ce, samplePlain.commitErr = some ce →
       (RunTxWithResult (Except.ok samplePlain) ((some 5 : Option Nat), none)
         DefaultTxOptions).1 = (none, some (GoErr.failedToCommit ce)))) :=
  ⟨rfl, runTxWithResult_success_commits samplePlain rfl (some 5) DefaultTxOptions⟩

/-- C4: if begin fails inside the error-wrapping `RunTxWithResult`, the helper
returns `FailedToStartTransaction` wrapping the begin error and invokes neither
the action nor rollback nor commit; and at the pgx adapter, a failing driver
begin on a fresh unit of work returns the driver error and stores neither a
transaction handle nor a repository registry (the state stays not-started). -/
theorem runTxWithResult_begin_failure_guards
    (u : UOWBehavior ε) (be : GoErr ε) (hb : u.beginErr = some be)
    (action : Option ρ × Option (GoErr ε)) (options : TxOptions)
    (conn : PgConn ε₂) (f : NativeTx ε₂ → ρ₂) (e : GoErr ε₂)
    (hc : conn.beginResults conn.beginCalls = Except.error e)
    (sqlOptions : Option Sql.TxOptions) :
    RunTxWithResult (Except.ok u) action options =
      ((none, some (GoErr.failedToStartTransaction be)), ⟨1, 0, 0, 0⟩) ∧
    ((PgUOW.Begin (newPgUOW conn f) sqlOptions).1 = some e ∧
     (PgUOW.Begin (newPgUOW conn f) sqlOptions).2.tx = none ∧
     (PgUOW.Begin (newPgUOW conn f) sqlOptions).2.repoRegistry = none) := by
  refine ⟨?_, ?_⟩
  · simp [RunTxWithResult, hb]
  · simp [PgUOW.Begin, PgConn.beginTx, newPgUOW, hc]

/-- Witness for C4: a behavior whose begin fails with error 2 and a pooled
connection whose driver begin fails with error 3. -/
theorem runTxWithResult_begin_failure_guards_witness :
    (sampleBeginFail.beginErr = some (GoErr.base 2) ∧
     sampleFailingConn.beginResults sampleFailingConn.beginCalls =
       Except.error (GoErr.base 3)) ∧
    (RunTxWithResult (Except.ok sampleBeginFail) ((some 1 : Option Nat), none)
        DefaultTxOptions =
      ((none, some (GoErr.failedToStartTransaction (GoErr.base 2))), ⟨1, 0, 0, 0⟩) ∧
     ((PgUOW.Begin (newPgUOW sampleFailingConn (fun _ => (0 : Nat))) none).1 =
        some (GoErr.base 3) ∧
      (PgUOW.Begin (newPgUOW sampleFailingConn (fun _ => (0 : Nat))) none).2.tx =
        none ∧
      (PgUOW.Begin (newPgUOW sampleFailingConn
        (fun _ => (0 : Nat))) none).2.repoRegistry = none)) :=
  ⟨⟨rfl, rfl⟩, runTxWithResult_begin_failure_guards sampleBeginFail (GoErr.base 2)
    rfl ((some 1 : Option Nat), none) DefaultTxOptions sampleFailingConn
    (fun _ => (0 : Nat)) (GoErr.base 3) rfl none⟩

/-- Exec count of native COMMIT statements of the transaction a pgx unit of work
currently stores (0 when none is stored). -/
def PgUOW.nativeCommitExecs (u : PgUOW ρ ε) : Nat :=
  match u.tx with
  | none => 0
  | some t => t.commitExecs

/-- Exec count of native ROLLBACK statements of the transaction a pgx unit of
work currently stores. -/
def PgUOW.nativeRollbackExecs (u : PgUOW ρ ε) : Nat :=
  match u.tx with
  | none => 0
  | some t => t.rollbackExecs

/-- Exec count of native COMMIT statements of the transaction a sql unit of work
currently stores. -/
def SqlUOW.nativeCommitExecs (u : SqlUOW ρ ε) : Nat :=
  match u.tx with
  | none => 0
  | some t => t.commitExecs

/-- Exec count of native ROLLBACK statements of the transaction a sql unit of
work currently stores. -/
def SqlUOW.nativeRollbackExecs (u : SqlUOW ρ ε) : Nat :=
  match u.tx with
  | none => 0
  | some t => t.rollbackExecs

/-- One finalize step on the pgx unit of work: `true` chooses `Commit`, `false`
chooses `Rollback`. -/
def PgUOW.finalize (b : Bool) (u : PgUOW ρ ε) : Option (GoErr ε) × PgUOW ρ ε :=
  if b then PgUOW.Commit u else PgUOW.Rollback u

/-- One finalize step on the sql unit of work: `true` chooses `Commit`, `false`
chooses `Rollback`. -/
def SqlUOW.finalize (b : Bool) (u : SqlUOW ρ ε) : Option (GoErr ε) × SqlUOW ρ ε :=
  if b then SqlUOW.Commit u else SqlUOW.Rollback u

/-- C5: on a unit of work (either adapter) holding a native transaction, any
second commit-or-rollback following a first commit-or-rollback reports an error
and executes no further native COMMIT or ROLLBACK statement: the driver handle
was marked done by the first call, so the second never double-executes against
the native driver. -/
theorem uow_second_finalize_rejected
    (b₁ b₂ c₁ c₂ : Bool)
    (u : PgUOW ρ ε) (t : NativeTx ε) (h : u.tx = some t)
    (v : SqlUOW ρ₂ ε₂) (s : NativeTx ε₂) (hv : v.tx = some s) :
    ((PgUOW.finalize b₂ (PgUOW.finalize b₁ u).2).1.isSome = true ∧
     PgUOW.nativeCommitExecs (PgUOW.finalize b₂ (PgUOW.finalize b₁ u).2).2 =
       PgUOW.nativeCommitExecs (PgUOW.finalize b₁ u).2 ∧
     PgUOW.nativeRollbackExecs (PgUOW.finalize b₂ (PgUOW.finalize b₁ u).2).2 =
       PgUOW.nativeRollbackExecs (PgUOW.finalize b₁ u).2) ∧
    ((SqlUOW.finalize c₂ (SqlUOW.finalize c₁ v).2).1.isSome = true ∧
     SqlUOW.nativeCommitExecs (SqlUOW.finalize c₂ (SqlUOW.finalize c₁ v).2).2 =
       SqlUOW.nativeCommitExecs (SqlUOW.finalize c₁ v).2 ∧
     SqlUOW.nativeRollbackExecs (SqlUOW.finalize c₂ (SqlUOW.finalize c₁ v).2).2 =
       SqlUOW.nativeRollbackExecs (SqlUOW.finalize c₁ v).2) := by
  constructor
  · cases b₁ <;> cases b₂ <;> cases ht : t.done <;>
      simp [PgUOW.finalize, PgUOW.Commit, PgUOW.Rollback, PgUOW.nativeCommitExecs,
        PgUOW.nativeRollbackExecs, PgConn.release, NativeTx.commit,
        NativeTx.rollback, h, ht]
  · cases c₁ <;> cases c₂ <;> cases hs : s.done <;>
      simp [SqlUOW.finalize, SqlUOW.Commit, SqlUOW.Rollback, SqlUOW.nativeCommitExecs,
        SqlUOW.nativeRollbackExecs, NativeTx.commit, NativeTx.rollback, hv, hs]

/-- Sample native transaction handle, not yet finalized. -/
def sampleNativeTx : NativeTx Nat :=
  { commitErr := none, rollbackErr := none, done := false, commitExecs := 0,
    rollbackExecs := 0 }

/-- Sample pgx unit of work holding an active native transaction. -/
def sampleActivePg : PgUOW Nat Nat :=
  { tx := some sampleNativeTx
    repoRegistry := some 1
    conn :=
      { beginResults := fun _ => Except.ok sampleNativeTx, beginCalls := 1,
        releaseCount := 0 }
    repoRegistryFactory := fun _ => 1 }

/-- Sample sql unit of work holding an active native transaction. -/
def sampleActiveSql : SqlUOW Nat Nat :=
  { tx := some sampleNativeTx
    repoRegistry := some 1
    db := { beginResults := fun _ => Except.ok sampleNativeTx, beginCalls := 1 }
    repoRegistryFactory := fun _ => 1 }

/-- Witness for C5: commit-after-commit on the pgx sample and
commit-after-rollback on the sql sample. -/
theorem uow_second_finalize_rejected_witness :
    (sampleActivePg.tx = some sampleNativeTx ∧
     sampleActiveSql.tx = some sampleNativeTx) ∧
    (((PgUOW.finalize true (PgUOW.finalize true sampleActivePg).2).1.isSome = true ∧
      PgUOW.nativeCommitExecs
          (PgUOW.finalize true (PgUOW.finalize true sampleActivePg).2).2 =
        PgUOW.nativeCommitExecs (PgUOW.finalize true sampleActivePg).2 ∧
      PgUOW.nativeRollbackExecs
          (PgUOW.finalize true (PgUOW.finalize true sampleActivePg).2).2 =
        PgUOW.nativeRollbackExecs (PgUOW.finalize true sampleActivePg).2) ∧
     ((SqlUOW.finalize true (SqlUOW.finalize false sampleActiveSql).2).1.isSome = true ∧
      SqlUOW.nativeCommitExecs
          (SqlUOW.finalize true (SqlUOW.finalize false sampleActiveSql).2).2 =
        SqlUOW.nativeCommitExecs (SqlUOW.finalize false sampleActiveSql).2 ∧
      SqlUOW.nativeRollbackExecs
          (SqlUOW.finalize true (SqlUOW.finalize false sampleActiveSql).2).2 =
        SqlUOW.nativeRollbackExecs (SqlUOW.finalize false sampleActiveSql).2)) :=
  ⟨⟨rfl, rfl⟩, uow_second_finalize_rejected true true false true sampleActivePg
    sampleNativeTx rfl sampleActiveSql sampleNativeTx rfl⟩

/-- Connection whose k-th driver begin succeeds with a transaction tagged by k in
its would-be commit error, so successive begins yield distinguishable handles. -/
def overwritingConn : PgConn Nat :=
  { beginResults := fun k =>
      Except.ok
        { commitErr := some (GoErr.base k), rollbackErr := none, done := false,
          commitExecs := 0, rollbackExecs := 0 }
    beginCalls := 0
    releaseCount := 0 }

/-- C6 counterexample: on the pgx adapter, a second `Begin` on an already-active
unit of work is not rejected — it reports no error and silently replaces the
stored transaction handle with a different one. -/
theorem pgUOW_second_begin_not_rejected :
    (PgUOW.Begin
        (PgUOW.Begin (newPgUOW overwritingConn (fun _ => (0 : Nat))) none).2
        none).1 = none ∧
    (PgUOW.Begin
        (PgUOW.Begin (newPgUOW overwritingConn (fun _ => (0 : Nat))) none).2
        none).2.tx ≠
      (PgUOW.Begin (newPgUOW overwritingConn (fun _ => (0 : Nat))) none).2.tx := by
  constructor
  · rfl
  · simp [PgUOW.Begin, PgConn.beginTx, newPgUOW, overwritingConn]

/-- C6 amended: on both adapters, a second `Begin` on an already-active unit of
work is not rejected: when the driver begin succeeds it reports no error and
silently overwrites the stored transaction handle and repository registry with
fresh ones, leaking the first. -/
theorem uow_second_begin_overwrites
    (u : PgUOW ρ ε) (t tf : NativeTx ε) (h : u.tx = some t)
    (hc : u.conn.beginResults u.conn.beginCalls = Except.ok tf)
    (options : Option Sql.TxOptions)
    (v : SqlUOW ρ₂ ε₂) (s sf : NativeTx ε₂) (hv : v.tx = some s)
    (hd : v.db.beginResults v.db.beginCalls = Except.ok sf)
    (sqlOptions : Option Sql.TxOptions) :
    ((PgUOW.Begin u options).1 = none ∧
     (PgUOW.Begin u options).2.tx = some tf ∧
     (PgUOW.Begin u options).2.repoRegistry = some (u.repoRegistryFactory tf)) ∧
    ((SqlUOW.Begin v sqlOptions).1 = none ∧
     (SqlUOW.Begin v sqlOptions).2.tx = some sf ∧
     (SqlUOW.Begin v sqlOptions).2.repoRegistry =
       some (v.repoRegistryFactory sf)) := by
  constructor
  · simp [PgUOW.Begin, PgConn.beginTx, hc]
  · simp [SqlUOW.Begin, SqlDB.beginTx, hd]

/-- Witness for the amended C6 at the active sample units of work. -/
theorem uow_second_begin_overwrites_witness :
    (sampleActivePg.tx = some sampleNativeTx ∧
     sampleActivePg.conn.beginResults sampleActivePg.conn.beginCalls =
       Except.ok sampleNativeTx ∧
     sampleActiveSql.tx = some sampleNativeTx ∧
     sampleActiveSql.db.beginResults sampleActiveSql.db.beginCalls =
       Except.ok sampleNativeTx) ∧
    (((PgUOW.Begin sampleActivePg none).1 = none ∧
      (PgUOW.Begin sampleActivePg none).2.tx = some sampleNativeTx ∧
      (PgUOW.Begin sampleActivePg none).2.repoRegistry =
        some (sampleActivePg.repoRegistryFactory sampleNativeTx)) ∧
     ((SqlUOW.Begin sampleActiveSql none).1 = none ∧
      (SqlUOW.Begin sampleActiveSql none).2.tx = some sampleNativeTx ∧
      (SqlUOW.Begin sampleActiveSql none).2.repoRegistry =
        some (sampleActiveSql.repoRegistryFactory sampleNativeTx))) :=
  ⟨⟨rfl, rfl, rfl, rfl⟩, uow_second_begin_overwrites sampleActivePg sampleNativeTx
    sampleNativeTx rfl rfl none sampleActiveSql sampleNativeTx sampleNativeTx rfl
    rfl none⟩

/-- Sample database handle for the sql adapter. -/
def sampleDb : SqlDB Nat :=
  { beginResults := fun _ => Except.ok sampleNativeTx, beginCalls := 0 }

/-- C8: on a unit of work on which `Begin` never succeeded (no transaction
stored), the repository accessor fails with `TransactionNotStarted` (the
must-variant panics with that message), and `Commit`/`Rollback` return the
`TransactionNotStarted` error while touching no native transaction: the sql
adapter leaves its state unchanged, the pgx adapter changes nothing but the
connection release (which it performs on every path). -/
theorem uow_not_started_guards
    (u : PgUOW ρ ε) (h : u.tx = none) (v : SqlUOW ρ₂ ε₂) (hv : v.tx = none) :
    (PgUOW.RepoRegistry u = Except.error GoErr.transactionNotStarted ∧
     PgUOW.MustRepoRegistry u = PanicOr.panicked "transaction not started" ∧
     PgUOW.Commit u =
       (some GoErr.transactionNotStarted, { u with conn := PgConn.release u.conn }) ∧
     PgUOW.Rollback u =
       (some GoErr.transactionNotStarted, { u with conn := PgConn.release u.conn })) ∧
    (SqlUOW.MustRepoRegistry v = PanicOr.panicked "transaction not started" ∧
     SqlUOW.Commit v = (some GoErr.transactionNotStarted, v) ∧
     SqlUOW.Rollback v = (some GoErr.transactionNotStarted, v)) := by
  constructor
  · simp [PgUOW.RepoRegistry, PgUOW.MustRepoRegistry, PgUOW.Commit, PgUOW.Rollback, h]
  · simp [SqlUOW.MustRepoRegistry, SqlUOW.Commit, SqlUOW.Rollback, hv]

/-- Witness for C8 at freshly constructed units of work of both adapters. -/
theorem uow_not_started_guards_witness :
    ((newPgUOW sampleFailingConn (fun _ => (0 : Nat))).tx = none ∧
     (newSQLUOW sampleDb (fun _ => (0 : Nat))).tx = none) ∧
    ((PgUOW.RepoRegistry (newPgUOW sampleFailingConn (fun _ => (0 : Nat))) =
        Except.error GoErr.transactionNotStarted ∧
      PgUOW.MustRepoRegistry (newPgUOW sampleFailingConn (fun _ => (0 : Nat))) =
        PanicOr.panicked "transaction not started" ∧
      PgUOW.Commit (newPgUOW sampleFailingConn (fun _ => (0 : Nat))) =
        (some GoErr.transactionNotStarted,
         { newPgUOW sampleFailingConn (fun _ => (0 : Nat)) with
             conn := PgConn.release
               (newPgUOW sampleFailingConn (fun _ => (0 : Nat))).conn }) ∧
      PgUOW.Rollback (newPgUOW sampleFailingConn (fun _ => (0 : Nat))) =
        (some GoErr.transactionNotStarted,
         { newPgUOW sampleFailingConn (fun _ => (0 : Nat)) with
             conn := PgConn.release
               (newPgUOW sampleFailingConn (fun _ => (0 : Nat))).conn })) ∧
     (SqlUOW.MustRepoRegistry (newSQLUOW sampleDb (fun _ => (0 : Nat))) =
        PanicOr.panicked "transaction not started" ∧
      SqlUOW.Commit (newSQLUOW sampleDb (fun _ => (0 : Nat))) =
        (some GoErr.transactionNotStarted, newSQLUOW sampleDb (fun _ => (0 : Nat))) ∧
      SqlUOW.Rollback (newSQLUOW sampleDb (fun _ => (0 : Nat))) =
        (some GoErr.transactionNotStarted,
         newSQLUOW sampleDb (fun _ => (0 : Nat))))) :=
  ⟨⟨rfl, rfl⟩, uow_not_started_guards
    (newPgUOW sampleFailingConn (fun _ => (0 : Nat))) rfl
    (newSQLUOW sampleDb (fun _ => (0 : Nat))) rfl⟩

/-- C9: both `RunTx` variants return exactly the error component (and the same
lifecycle trace) of their `RunTxWithResult` on the same factory and options with
the action wrapped to return a nil result — they are the same code path, with
panics of the defer variant propagating unchanged. -/
theorem runTx_is_runTxWithResult_error_component
    (factoryResult : Except (GoErr ε) (UOWBehavior ε))
    (actionErr : Option (GoErr ε)) (options : TxOptions)
    (factoryResult₂ : Except (GoErr ε₂) (UOWBehavior ε₂))
    (action₂ : TxActionOutcome ε₂ π) (sqlOptions : Option Sql.TxOptions) :
    RunTx factoryResult actionErr options =
      ((RunTxWithResult factoryResult ((none : Option Unit), actionErr) options).1.2,
       (RunTxWithResult factoryResult ((none : Option Unit), actionErr) options).2) ∧
    RunTxDefer factoryResult₂ action₂ sqlOptions =
      (runOutcomeErr
         (RunTxWithResultDefer factoryResult₂ (wrapTxAction action₂) sqlOptions).1,
       (RunTxWithResultDefer factoryResult₂ (wrapTxAction action₂) sqlOptions).2) :=
  ⟨rfl, rfl⟩
